import Mathlib

/-!
Shallow embedding of `src/wuwa_bot.py` (WuWa Waveplate Notifier).

Modelling conventions:
* Timestamps (`datetime` values) are natural numbers of seconds since the
  epoch; `datetime.now()` becomes an explicit `now : Nat` parameter.
  Elapsed time `(now - timestamp).total_seconds()` is computed in `Int`
  so that a stored timestamp in the future yields a negative elapsed time,
  exactly as in Python.
* Python's `int(x)` applied to a float quotient truncates toward zero;
  for integer second counts `int(elapsed / 60 / REGEN_RATE_MINUTES)` is
  exactly `Int.tdiv elapsed (60 * REGEN_RATE_MINUTES)`.
* The module-level dict `user_data_store` is an association list
  `List (Nat × UserData)` with dict semantics: lookup finds the first
  matching key, assignment overwrites an existing key in place and
  otherwise appends.
* The `telegram.ext` job queue is a list of jobs `(name, delay)`;
  `get_jobs_by_name` + `schedule_removal` is a filter, `run_once` appends.
* The JSON file on disk is a list of raw entries
  `(uid digits, waveplates, timestamp digits)`: Python's `str`/`int` and
  `datetime.isoformat`/`fromisoformat` round-trip a value exactly through
  its decimal text, modelled by `Nat.digits 10` / `Nat.ofDigits 10` with
  an entry being unparseable when some "digit" is out of range.
* `save_db` wraps its file write in `try/except` and only logs on failure.
  A `WriteOutcome` parameter tells how the I/O went: the write succeeded,
  `open(DB_FILE, 'w')` itself raised (old file untouched), or the dump
  raised after the truncating `open` succeeded (only a prefix of the new
  content is on disk; the old content is already gone).
-/

/-- `WAVEPLATE_CAP = 240` from the configuration block. -/
def WAVEPLATE_CAP : Int := 240

/-- `REGEN_RATE_MINUTES = 6` from the configuration block. -/
def REGEN_RATE_MINUTES : Int := 6

/-- One value of `user_data_store`: `{"waveplates": ..., "timestamp": ...}`. -/
structure UserData where
  waveplates : Int
  timestamp : Nat
  deriving DecidableEq, Repr

/-- A raw JSON entry on disk: (uid as decimal digits, waveplates, timestamp
as decimal digits of the ISO instant). -/
abbrev RawEntry : Type := List Nat × Int × List Nat

/-- Dict lookup `user_data_store.get(uid)`. -/
def storeLookup (s : List (Nat × UserData)) (uid : Nat) : Option UserData :=
  (s.find? (fun p => p.1 == uid)).map Prod.snd

/-- Dict assignment `user_data_store[uid] = d`: overwrite in place if the key
exists, else append. -/
def storeInsert (s : List (Nat × UserData)) (uid : Nat) (d : UserData) :
    List (Nat × UserData) :=
  if (s.find? (fun p => p.1 == uid)).isSome then
    s.map (fun p => if p.1 == uid then (uid, d) else p)
  else s ++ [(uid, d)]

/-- `calculate_current_wp` (lines 60-69): looks the user up, computes
`regenerated = int(elapsed_minutes / REGEN_RATE_MINUTES)` (truncation toward
zero, negative when the stored timestamp is in the future) and returns
`min(total, WAVEPLATE_CAP)`.  There is no lower clamp in the source. -/
def calculate_current_wp (store : List (Nat × UserData)) (uid : Nat)
    (now : Nat) : Option Int :=
  match storeLookup store uid with
  | none => none
  | some data =>
    some (min (data.waveplates +
      Int.tdiv ((now : Int) - (data.timestamp : Int)) (REGEN_RATE_MINUTES * 60))
      WAVEPLATE_CAP)

/-- `get_seconds_to_cap` (lines 71-75). -/
def get_seconds_to_cap (current_wp : Int) : Int :=
  if current_wp ≥ WAVEPLATE_CAP then 0
  else (WAVEPLATE_CAP - current_wp) * REGEN_RATE_MINUTES * 60

/-- `schedule_notification` (lines 181-202): removes every job named after
this user, then arms one new job when the wait is positive. -/
def schedule_notification (jobs : List (Nat × Int)) (uid : Nat)
    (amount : Int) : List (Nat × Int) :=
  let remaining := jobs.filter (fun j => !(j.1 == uid))
  let seconds_to_wait := get_seconds_to_cap amount
  if seconds_to_wait > 0 then remaining ++ [(uid, seconds_to_wait)]
  else remaining

/-- Little-endian decimal digits of `n`, with explicit fuel so the kernel can
evaluate it; `natDigitsAux fuel n` is the digit list of `n` whenever
`n ≤ fuel`. -/
def natDigitsAux : Nat → Nat → List Nat
  | _, 0 => []
  | 0, _ + 1 => []
  | fuel + 1, n + 1 => (n + 1) % 10 :: natDigitsAux fuel ((n + 1) / 10)

/-- The decimal text of `n` (as Python's `str` / `isoformat` produce it),
modelled as its little-endian digit list. -/
def natDigits (n : Nat) : List Nat :=
  natDigitsAux n n

/-- The number denoted by a little-endian decimal digit list. -/
def ofDigits10 : List Nat → Nat
  | [] => 0
  | d :: ds => d + 10 * ofDigits10 ds

/-- Serialization of one store entry in `save_db`: `str(uid)` and
`timestamp.isoformat()` become the decimal digit lists of the numbers. -/
def exportEntry (p : Nat × UserData) : RawEntry :=
  (natDigits p.1, p.2.waveplates, natDigits p.2.timestamp)

/-- The full serialized content `export_data` written by `save_db`. -/
def exportStore (s : List (Nat × UserData)) : List RawEntry :=
  s.map exportEntry

/-- How the file I/O inside `save_db` went.  `ok`: open and dump both
succeeded.  `openFailed`: `open(DB_FILE, 'w')` itself raised (e.g.
permission denied), before touching the file.  `writeFailed k`: the
truncating `open` succeeded but the dump raised after `k` entries (e.g.
disk full). -/
inductive WriteOutcome where
  | ok
  | openFailed
  | writeFailed (k : Nat)
  deriving DecidableEq, Repr

/-- `save_db` (lines 43-57): on a successful write the file holds the export
of the entire table.  If `open` itself raises, the previous disk content is
untouched; if the dump raises after the truncating `open`, only the prefix
written so far remains — the old content was destroyed at `open` time.  In
every failure case the exception is caught and logged; the caller is never
told. -/
def save_db (s : List (Nat × UserData)) (oldDisk : List RawEntry) :
    WriteOutcome → List RawEntry
  | .ok => exportStore s
  | .openFailed => oldDisk
  | .writeFailed k => (exportStore s).take k

/-- The on-disk contents observable if the process dies during `save_db`:
`open(DB_FILE, 'w')` truncates the file immediately, then `json.dump`
writes the serialized entries sequentially, so dying after `k` units leaves
exactly the first `k` units of the new content (the old content is gone the
moment the file is opened).  There is no temporary file and no rename in
the source. -/
def save_db_crash_states (content : List RawEntry) : List (List RawEntry) :=
  (List.range (content.length + 1)).map (fun k => content.take k)

/-- `int(text)` / `datetime.fromisoformat(text)`: succeeds exactly when every
digit is a real decimal digit, returning the denoted number. -/
def parseDecimal (l : List Nat) : Option Nat :=
  if l.all (fun d => decide (d < 10)) then some (ofDigits10 l) else none

/-- The hydration loop inside `load_db` (lines 34-38): entries are inserted
into the table one by one inside the `try`; the first unparseable entry
raises, which aborts the loop but keeps everything inserted so far.  The
boolean records whether an exception was caught (and logged). -/
def load_entries (acc : List (Nat × UserData)) :
    List RawEntry → Bool × List (Nat × UserData)
  | [] => (false, acc)
  | (u, w, t) :: rest =>
    match parseDecimal u, parseDecimal t with
    | some uid, some ts => load_entries (storeInsert acc uid ⟨w, ts⟩) rest
    | _, _ => (true, acc)

/-- `load_db` (lines 24-41).  `none` = file absent (cold start, no error);
`some none` = file present but `json.load` itself raised (caught, logged,
empty table); `some (some entries)` = parsed JSON object, hydrated entry by
entry.  In every case the function returns normally. -/
def load_db (file : Option (Option (List RawEntry))) :
    Bool × List (Nat × UserData) :=
  match file with
  | none => (false, [])
  | some none => (true, [])
  | some (some entries) => load_entries [] entries

/-- What the `__main__` block establishes before `run_polling`: `load_db()`
is called, its result hydrates the table, and the bot starts serving
unconditionally — nothing in the source inspects whether loading failed. -/
structure StartupResult where
  serving : Bool
  loadErrorLogged : Bool
  store : List (Nat × UserData)
  deriving DecidableEq, Repr

/-- The startup sequence of the `__main__` block (lines 240-255). -/
def main_startup (file : Option (Option (List RawEntry))) : StartupResult :=
  { serving := true
    loadErrorLogged := (load_db file).1
    store := (load_db file).2 }

/-- The mutable process state the handlers touch: the in-memory table, the
persisted file content, and the job queue. -/
structure BotState where
  store : List (Nat × UserData)
  disk : List RawEntry
  jobs : List (Nat × Int)
  deriving DecidableEq, Repr

/-- `update_state_and_schedule` (lines 168-179): update memory, save to file
(failures swallowed inside `save_db`), then restart the timer — the timer
step runs whether or not the save succeeded. -/
def update_state_and_schedule (st : BotState) (uid : Nat) (amount : Int)
    (now : Nat) (w : WriteOutcome) : BotState :=
  { store := storeInsert st.store uid ⟨amount, now⟩
    disk := save_db (storeInsert st.store uid ⟨amount, now⟩) st.disk w
    jobs := schedule_notification st.jobs uid amount }

/-- Outcome of `int(context.args[0])` plus the missing-args guard. -/
inductive CmdArg where
  | noArgs
  | notNum
  | num (n : Int)
  deriving DecidableEq

/-- The replies `set_manual` can send. -/
inductive Reply where
  | usageMsg
  | rangeErrorMsg
  | invalidNumberMsg
  | updatedMsg (n : Int)
  deriving DecidableEq

/-- `set_manual` (lines 104-123): no args → usage; `int()` raising
`ValueError` → error message; amount outside `[0, WAVEPLATE_CAP]` → range
message; otherwise the update-and-schedule path runs. -/
def set_manual (st : BotState) (uid : Nat) (arg : CmdArg) (now : Nat)
    (w : WriteOutcome) : BotState × Reply :=
  match arg with
  | .noArgs => (st, .usageMsg)
  | .notNum => (st, .invalidNumberMsg)
  | .num amount =>
    if amount < 0 ∨ amount > WAVEPLATE_CAP then (st, .rangeErrorMsg)
    else (update_state_and_schedule st uid amount now w, .updatedMsg amount)

/-- `start` (lines 79-102): only a user id not yet in the store is inserted
(as full: `waveplates = WAVEPLATE_CAP`, `timestamp = now`) and saved; a
known user id leaves everything untouched.  `start` never touches the job
queue. -/
def start (st : BotState) (uid : Nat) (now : Nat) (w : WriteOutcome) : BotState :=
  if (storeLookup st.store uid).isSome then st
  else
    { store := storeInsert st.store uid ⟨WAVEPLATE_CAP, now⟩
      disk := save_db (storeInsert st.store uid ⟨WAVEPLATE_CAP, now⟩) st.disk w
      jobs := st.jobs }

/-- `restore_jobs` (lines 216-237): for every stored user, recompute the
current level from the saved timestamp and, when below the cap, `run_once`
a job for the remaining time.  Note: unlike `schedule_notification`, no
existing job is removed first. -/
def restore_jobs (jobs : List (Nat × Int)) (store : List (Nat × UserData))
    (now : Nat) : List (Nat × Int) :=
  store.foldl (fun js p =>
    let elapsed_seconds : Int := (now : Int) - (p.2.timestamp : Int)
    let regenerated := Int.tdiv elapsed_seconds (60 * REGEN_RATE_MINUTES)
    let current_wp := min (p.2.waveplates + regenerated) WAVEPLATE_CAP
    if current_wp < WAVEPLATE_CAP then js ++ [(p.1, get_seconds_to_cap current_wp)]
    else js) jobs

/-- The per-user current level as recomputed inside `restore_jobs`
(lines 224-226). -/
def restore_cur (d : UserData) (now : Nat) : Int :=
  min (d.waveplates +
    Int.tdiv ((now : Int) - (d.timestamp : Int)) (60 * REGEN_RATE_MINUTES))
    WAVEPLATE_CAP

/-- The jobs `restore_jobs` adds, entry by entry. -/
def restore_armed (store : List (Nat × UserData)) (now : Nat) :
    List (Nat × Int) :=
  store.filterMap (fun p =>
    if restore_cur p.2 now < WAVEPLATE_CAP then
      some (p.1, get_seconds_to_cap (restore_cur p.2 now))
    else none)

/-- The spec's stored-snapshot formula, written with floor division as the
spec words it ("current level at time t = min(CAP, level + floor((t − as_of)
/ REGEN_PERIOD))"), for comparison with `calculate_current_wp`. -/
def currentLevel_spec (level : Int) (as_of t : Nat) : Int :=
  min WAVEPLATE_CAP
    (level + Int.fdiv ((t : Int) - (as_of : Int)) (REGEN_RATE_MINUTES * 60))

/-! ### Helper lemmas about the dict model -/

theorem find?_map_overwrite (s : List (Nat × UserData)) (uid : Nat) (d : UserData)
    (h : (s.find? (fun p => p.1 == uid)).isSome = true) :
    (s.map (fun p => if p.1 == uid then (uid, d) else p)).find?
      (fun p => p.1 == uid) = some (uid, d) := by
  induction s with
  | nil => simp at h
  | cons p s ih =>
    cases hp : (p.1 == uid) with
    | true =>
      have hpe : p.1 = uid := by simpa using hp
      simp [List.find?_cons, hpe]
    | false =>
      simp only [List.map_cons, hp, if_false, Bool.false_eq_true, List.find?_cons]
      apply ih
      simpa [List.find?_cons, hp] using h

theorem find?_append_self (s : List (Nat × UserData)) (uid : Nat) (d : UserData)
    (h : s.find? (fun p => p.1 == uid) = none) :
    (s ++ [(uid, d)]).find? (fun p => p.1 == uid) = some (uid, d) := by
  induction s with
  | nil => simp [List.find?_cons]
  | cons p s ih =>
    cases hp : (p.1 == uid) with
    | true => simp [List.find?_cons, hp] at h
    | false =>
      simp only [List.cons_append, List.find?_cons, hp]
      apply ih
      simpa [List.find?_cons, hp] using h

theorem storeLookup_insert_self (s : List (Nat × UserData)) (uid : Nat)
    (d : UserData) : storeLookup (storeInsert s uid d) uid = some d := by
  unfold storeLookup storeInsert
  by_cases h : (s.find? (fun p => p.1 == uid)).isSome = true
  · rw [if_pos h, find?_map_overwrite s uid d h]
    rfl
  · rw [if_neg (by simpa using h),
      find?_append_self s uid d (Option.not_isSome_iff_eq_none.mp (by simpa using h))]
    rfl

theorem find?_map_overwrite_other (s : List (Nat × UserData)) (uid : Nat)
    (d : UserData) (v : Nat) (hne : v ≠ uid) :
    (s.map (fun p => if p.1 == uid then (uid, d) else p)).find?
      (fun p => p.1 == v) = s.find? (fun p => p.1 == v) := by
  induction s with
  | nil => rfl
  | cons p s ih =>
    simp only [List.map_cons]
    cases hv : (p.1 == v) with
    | true =>
      have huid : (p.1 == uid) = false := by
        have hpv : p.1 = v := by simpa using hv
        simp [hpv, hne]
      simp [List.find?_cons, huid, hv]
    | false =>
      have hv2 : (((if p.1 == uid then (uid, d) else p) : Nat × UserData).1 == v) = false := by
        cases huid : (p.1 == uid) with
        | true => simp [huid, Ne.symm hne]
        | false => simp [huid, hv]
      simp only [List.find?_cons, hv2, hv]
      exact ih

theorem storeLookup_insert_other (s : List (Nat × UserData)) (uid : Nat)
    (d : UserData) (v : Nat) (hne : v ≠ uid) :
    storeLookup (storeInsert s uid d) v = storeLookup s v := by
  unfold storeLookup storeInsert
  by_cases h : (s.find? (fun p => p.1 == uid)).isSome = true
  · rw [if_pos h, find?_map_overwrite_other s uid d v hne]
  · rw [if_neg (by simpa using h)]
    congr 1
    clear h
    induction s with
    | nil => simp [List.find?_cons, Ne.symm hne]
    | cons p s ih =>
      cases hv : (p.1 == v) with
      | true => simp [List.find?_cons, hv]
      | false =>
        simp only [List.cons_append, List.find?_cons, hv]
        exact ih

theorem storeInsert_append_of_find?_none (s : List (Nat × UserData)) (uid : Nat)
    (d : UserData) (h : s.find? (fun p => p.1 == uid) = none) :
    storeInsert s uid d = s ++ [(uid, d)] := by
  unfold storeInsert
  rw [if_neg (by simp [h])]

theorem keys_storeInsert_present (s : List (Nat × UserData)) (uid : Nat)
    (d : UserData) (h : (s.find? (fun p => p.1 == uid)).isSome = true) :
    (storeInsert s uid d).map Prod.fst = s.map Prod.fst := by
  unfold storeInsert
  rw [if_pos h, List.map_map]
  apply List.map_congr_left
  intro p _
  by_cases hp : (p.1 == uid) = true
  · have hpe : p.1 = uid := by simpa using hp
    simp [hpe]
  · rw [Function.comp_apply, if_neg (by simpa using hp)]

theorem storeInsert_nodup (s : List (Nat × UserData)) (uid : Nat) (d : UserData)
    (h : (s.map Prod.fst).Nodup) :
    ((storeInsert s uid d).map Prod.fst).Nodup := by
  by_cases hf : (s.find? (fun p => p.1 == uid)).isSome = true
  · rw [keys_storeInsert_present s uid d hf]
    exact h
  · have hn : s.find? (fun p => p.1 == uid) = none :=
      Option.not_isSome_iff_eq_none.mp (by simpa using hf)
    rw [storeInsert_append_of_find?_none s uid d hn, List.map_append,
      List.nodup_append]
    refine ⟨h, by simp, ?_⟩
    intro a ha hb
    simp only [List.map_cons, List.map_nil, List.mem_singleton] at hb
    subst hb
    obtain ⟨p, hp, hpe⟩ := List.mem_map.mp ha
    rw [List.find?_eq_none] at hn
    exact absurd (by simp [hpe]) (hn p hp)

/-! ### Helper lemmas about the serialization codec and hydration -/

theorem ofDigits10_natDigitsAux : ∀ fuel n : Nat, n ≤ fuel →
    ofDigits10 (natDigitsAux fuel n) = n := by
  intro fuel
  induction fuel with
  | zero =>
    intro n h
    have h0 : n = 0 := Nat.le_zero.mp h
    subst h0
    rfl
  | succ fuel ih =>
    intro n h
    match n with
    | 0 => rfl
    | n + 1 =>
      simp only [natDigitsAux, ofDigits10]
      rw [ih ((n + 1) / 10) (by omega)]
      omega

theorem natDigitsAux_lt_ten : ∀ fuel n d : Nat, d ∈ natDigitsAux fuel n →
    d < 10 := by
  intro fuel
  induction fuel with
  | zero =>
    intro n d hd
    cases n <;> simp [natDigitsAux] at hd
  | succ fuel ih =>
    intro n d hd
    match n with
    | 0 => simp [natDigitsAux] at hd
    | n + 1 =>
      simp only [natDigitsAux, List.mem_cons] at hd
      rcases hd with hd | hd
      · omega
      · exact ih _ _ hd

theorem parseDecimal_natDigits (n : Nat) : parseDecimal (natDigits n) = some n := by
  unfold parseDecimal natDigits
  rw [if_pos, ofDigits10_natDigitsAux n n le_rfl]
  simp only [List.all_eq_true, decide_eq_true_eq]
  exact fun d hd => natDigitsAux_lt_ten n n d hd

theorem parseDecimal_of_big (l : List Nat) (h : ∃ d ∈ l, 10 ≤ d) :
    parseDecimal l = none := by
  unfold parseDecimal
  rw [if_neg]
  simp only [List.all_eq_true, decide_eq_true_eq]
  intro hall
  obtain ⟨d, hd, h10⟩ := h
  exact absurd (hall d hd) (by omega)

theorem foldl_storeInsert_disjoint : ∀ s acc : List (Nat × UserData),
    (s.map Prod.fst).Nodup →
    (∀ k ∈ s.map Prod.fst, k ∉ acc.map Prod.fst) →
    s.foldl (fun a p => storeInsert a p.1 p.2) acc = acc ++ s := by
  intro s
  induction s with
  | nil => intro acc _ _; simp
  | cons p s ih =>
    intro acc hnd hdisj
    have hnotin : p.1 ∉ acc.map Prod.fst := hdisj p.1 (by simp)
    have hfind : acc.find? (fun q => q.1 == p.1) = none := by
      rw [List.find?_eq_none]
      intro x hx
      simp only [beq_iff_eq]
      intro hc
      exact hnotin (List.mem_map.mpr ⟨x, hx, hc⟩)
    simp only [List.foldl_cons]
    rw [storeInsert_append_of_find?_none acc p.1 p.2 hfind]
    have hnd' : (s.map Prod.fst).Nodup := by
      simp only [List.map_cons, List.nodup_cons] at hnd
      exact hnd.2
    have hhead : p.1 ∉ s.map Prod.fst := by
      simp only [List.map_cons, List.nodup_cons] at hnd
      exact hnd.1
    rw [ih (acc ++ [(p.1, p.2)]) hnd' ?disj]
    · simp
    case disj =>
      intro k hk
      simp only [List.map_append, List.mem_append, List.map_cons, List.map_nil,
        List.mem_singleton, not_or]
      refine ⟨fun hacc => hdisj k (by simp [hk]) hacc, ?_⟩
      intro hkp
      exact hhead (hkp ▸ hk)

theorem load_entries_exportStore : ∀ s acc : List (Nat × UserData),
    load_entries acc (exportStore s) =
      (false, s.foldl (fun a p => storeInsert a p.1 p.2) acc) := by
  intro s
  induction s with
  | nil => intro acc; rfl
  | cons p s ih =>
    intro acc
    simp only [exportStore, List.map_cons, exportEntry, List.foldl_cons]
    rw [load_entries, parseDecimal_natDigits, parseDecimal_natDigits]
    exact ih (storeInsert acc p.1 ⟨p.2.waveplates, p.2.timestamp⟩)

theorem load_db_exportStore (s : List (Nat × UserData))
    (h : (s.map Prod.fst).Nodup) :
    load_db (some (some (exportStore s))) = (false, s) := by
  show load_entries [] (exportStore s) = (false, s)
  rw [load_entries_exportStore s []]
  rw [foldl_storeInsert_disjoint s [] h (by simp)]
  rfl

/-! ### Helper lemmas about the scheduler, recovery and regeneration math -/

theorem regen_seconds : REGEN_RATE_MINUTES * 60 = (360 : Int) := rfl

theorem regen_seconds_comm : (60 : Int) * REGEN_RATE_MINUTES = 360 := rfl

theorem cap_val : WAVEPLATE_CAP = (240 : Int) := rfl

theorem filter_remove_self (jobs : List (Nat × Int)) (uid : Nat) :
    (jobs.filter (fun j => !(j.1 == uid))).filter (fun j => j.1 == uid) = [] := by
  rw [List.filter_filter]
  have hfalse : (fun j : Nat × Int => (j.1 == uid) && !(j.1 == uid)) = fun _ => false := by
    funext j
    cases h : (j.1 == uid) <;> simp [h]
  rw [hfalse]
  simp

theorem restore_jobs_cons (jobs : List (Nat × Int)) (p : Nat × UserData)
    (s : List (Nat × UserData)) (now : Nat) :
    restore_jobs jobs (p :: s) now =
      restore_jobs (if restore_cur p.2 now < WAVEPLATE_CAP
        then jobs ++ [(p.1, get_seconds_to_cap (restore_cur p.2 now))]
        else jobs) s now := rfl

theorem restore_jobs_append_armed : ∀ (s : List (Nat × UserData))
    (jobs : List (Nat × Int)) (now : Nat),
    restore_jobs jobs s now = jobs ++ restore_armed s now := by
  intro s
  induction s with
  | nil => intro jobs now; simp [restore_jobs, restore_armed]
  | cons p s ih =>
    intro jobs now
    rw [restore_jobs_cons]
    by_cases h : restore_cur p.2 now < WAVEPLATE_CAP
    · rw [if_pos h, ih]
      simp [restore_armed, List.filterMap_cons, h]
    · rw [if_neg h, ih]
      simp [restore_armed, List.filterMap_cons, h]

theorem calculate_current_wp_eq (store : List (Nat × UserData)) (uid : Nat)
    (now : Nat) (d : UserData) (hl : storeLookup store uid = some d) :
    calculate_current_wp store uid now =
      some (min (d.waveplates +
        Int.tdiv ((now : Int) - (d.timestamp : Int)) (REGEN_RATE_MINUTES * 60))
        WAVEPLATE_CAP) := by
  unfold calculate_current_wp
  rw [hl]

/-- Every prefix of the new content is among the crash-visible states of a
`save_db` run (for `k` past the length this is the full write). -/
theorem take_mem_save_db_crash_states (l : List RawEntry) (k : Nat) :
    l.take k ∈ save_db_crash_states l := by
  unfold save_db_crash_states
  by_cases h : k ≤ l.length
  · exact List.mem_map.mpr ⟨k, List.mem_range.mpr (by omega), rfl⟩
  · refine List.mem_map.mpr ⟨l.length, List.mem_range.mpr (by omega), ?_⟩
    rw [List.take_length, List.take_of_length_le (by omega)]

/-! ### Claim C1 -/

/-- Claim C1 counterexample: with a one-entry table already on disk and the
dump failing right after the truncating `open` (`writeFailed 0`, e.g. disk
full), `update_state_and_schedule 1 0` still arms a timer for user 1
(86400 s to cap) — and the previously durable file is now empty.  The claim
says such an update must fail with no timer armed. -/
theorem save_failure_timer_armed_cex :
    (update_state_and_schedule ⟨[], [([7], 1, [])], []⟩ 1 0 5
      (WriteOutcome.writeFailed 0)).jobs = [(1, 86400)] ∧
    (update_state_and_schedule ⟨[], [([7], 1, [])], []⟩ 1 0 5
      (WriteOutcome.writeFailed 0)).disk = [] ∧
    (update_state_and_schedule ⟨[], [([7], 1, [])], []⟩ 1 0 5
      (WriteOutcome.writeFailed 0)).jobs ≠ [] := by
  decide

/-- Claim C1 (amended): a storage I/O error during the durable write is
swallowed inside `save_db` (logged only) and the operation proceeds: for
either failure mode (`open` raising, or the dump raising after the
truncating `open`) the in-memory update stands and the timer is armed
exactly as on the success path — no durability-before-scheduling on the
error path.  On disk, a failed `open` leaves the previous content, while a
dump failure leaves only a prefix of the new export (one of the mid-write
crash states), the old table being already destroyed by the truncation. -/
theorem save_failure_swallowed_update_proceeds (st : BotState) (uid : Nat)
    (amount : Int) (now : Nat) (k : Nat) (h : amount < WAVEPLATE_CAP) :
    (update_state_and_schedule st uid amount now WriteOutcome.openFailed).jobs =
      (update_state_and_schedule st uid amount now WriteOutcome.ok).jobs ∧
    (update_state_and_schedule st uid amount now (WriteOutcome.writeFailed k)).jobs =
      (update_state_and_schedule st uid amount now WriteOutcome.ok).jobs ∧
    storeLookup (update_state_and_schedule st uid amount now
      (WriteOutcome.writeFailed k)).store uid = some ⟨amount, now⟩ ∧
    storeLookup (update_state_and_schedule st uid amount now
      WriteOutcome.openFailed).store uid = some ⟨amount, now⟩ ∧
    (uid, get_seconds_to_cap amount) ∈
      (update_state_and_schedule st uid amount now (WriteOutcome.writeFailed k)).jobs ∧
    (update_state_and_schedule st uid amount now WriteOutcome.openFailed).disk =
      st.disk ∧
    (update_state_and_schedule st uid amount now (WriteOutcome.writeFailed k)).disk =
      (exportStore (storeInsert st.store uid ⟨amount, now⟩)).take k ∧
    (update_state_and_schedule st uid amount now (WriteOutcome.writeFailed k)).disk ∈
      save_db_crash_states (exportStore (storeInsert st.store uid ⟨amount, now⟩)) := by
  refine ⟨rfl, rfl, storeLookup_insert_self _ _ _, storeLookup_insert_self _ _ _,
    ?_, rfl, rfl, take_mem_save_db_crash_states _ k⟩
  show (uid, get_seconds_to_cap amount) ∈ schedule_notification st.jobs uid amount
  have hpos : get_seconds_to_cap amount > 0 := by
    unfold get_seconds_to_cap
    rw [if_neg (not_le.mpr h), cap_val]
    rw [cap_val] at h
    have h6 : REGEN_RATE_MINUTES = (6 : Int) := rfl
    rw [h6]
    omega
  unfold schedule_notification
  rw [if_pos hpos]
  exact List.mem_append_right _ (List.mem_singleton.mpr rfl)

/-- Claim C1 witness: the amended theorem applied at a concrete state with a
dump failure right after the truncating `open`. -/
theorem save_failure_swallowed_update_proceeds_witness :
    (update_state_and_schedule ⟨[], [([7], 1, [])], []⟩ 1 0 5
      WriteOutcome.openFailed).jobs =
      (update_state_and_schedule ⟨[], [([7], 1, [])], []⟩ 1 0 5
        WriteOutcome.ok).jobs ∧
    (update_state_and_schedule ⟨[], [([7], 1, [])], []⟩ 1 0 5
      (WriteOutcome.writeFailed 0)).jobs =
      (update_state_and_schedule ⟨[], [([7], 1, [])], []⟩ 1 0 5
        WriteOutcome.ok).jobs ∧
    storeLookup (update_state_and_schedule ⟨[], [([7], 1, [])], []⟩ 1 0 5
      (WriteOutcome.writeFailed 0)).store 1 = some ⟨0, 5⟩ ∧
    storeLookup (update_state_and_schedule ⟨[], [([7], 1, [])], []⟩ 1 0 5
      WriteOutcome.openFailed).store 1 = some ⟨0, 5⟩ ∧
    (1, get_seconds_to_cap 0) ∈
      (update_state_and_schedule ⟨[], [([7], 1, [])], []⟩ 1 0 5
        (WriteOutcome.writeFailed 0)).jobs ∧
    (update_state_and_schedule ⟨[], [([7], 1, [])], []⟩ 1 0 5
      WriteOutcome.openFailed).disk = [([7], 1, [])] ∧
    (update_state_and_schedule ⟨[], [([7], 1, [])], []⟩ 1 0 5
      (WriteOutcome.writeFailed 0)).disk =
      (exportStore (storeInsert [] 1 ⟨0, 5⟩)).take 0 ∧
    (update_state_and_schedule ⟨[], [([7], 1, [])], []⟩ 1 0 5
      (WriteOutcome.writeFailed 0)).disk ∈
      save_db_crash_states (exportStore (storeInsert [] 1 ⟨0, 5⟩)) :=
  save_failure_swallowed_update_proceeds ⟨[], [([7], 1, [])], []⟩ 1 0 5 0 (by decide)

/-! ### Claim C2 -/

/-- Claim C2 counterexample: a two-entry file whose second entry is
unparseable (a "digit" 99) is loaded without any fatal error: the bot starts
serving (`serving = true`) with a partially hydrated table holding only the
first entry — the claim says startup must fail. -/
theorem corrupt_db_startup_serves_cex :
    main_startup (some (some [([1], 100, []), ([99], 0, [])])) =
      { serving := true, loadErrorLogged := true, store := [(1, ⟨100, 0⟩)] } := by
  decide

/-- Claim C2 (amended): an unparseable persisted file is NOT fatal: `load_db`
catches the exception and merely logs it, the entries hydrated before the
first bad one stay in the table, and the bot starts serving with that
partially hydrated table. -/
theorem corrupt_db_logged_and_serving (good : Nat × UserData) (bad : List Nat)
    (w : Int) (t : List Nat) (hbad : ∃ d ∈ bad, 10 ≤ d) :
    main_startup (some (some [exportEntry good, (bad, w, t)])) =
      { serving := true, loadErrorLogged := true, store := [good] } := by
  have h1 : load_entries [] [exportEntry good, (bad, w, t)] =
      (true, [(good.1, good.2)]) := by
    simp only [exportEntry]
    rw [load_entries, parseDecimal_natDigits, parseDecimal_natDigits]
    show load_entries (storeInsert [] good.1 ⟨good.2.waveplates, good.2.timestamp⟩)
      [(bad, w, t)] = _
    rw [load_entries, parseDecimal_of_big bad hbad]
    cases parseDecimal t <;> rfl
  have h2 : load_db (some (some [exportEntry good, (bad, w, t)])) =
      (true, [(good.1, good.2)]) := h1
  simp [main_startup, h2]

/-- Claim C2 witness: the amended theorem applied at a concrete corrupt
file. -/
theorem corrupt_db_logged_and_serving_witness :
    main_startup (some (some [exportEntry (2, ⟨50, 3⟩), ([12], 7, [4])])) =
      { serving := true, loadErrorLogged := true, store := [(2, ⟨50, 3⟩)] } :=
  corrupt_db_logged_and_serving (2, ⟨50, 3⟩) [12] 7 [4] (by decide)

/-! ### Claim C3 -/

/-- Claim C3 counterexample: running `restore_jobs` twice over the same
one-user store leaves TWO live timers for user 1 — recovery does not cancel
prior timers, so "every operation that creates a timer first cancels any
prior timer" is false. -/
theorem restore_twice_two_timers_cex :
    restore_jobs (restore_jobs [] [(1, ⟨0, 0⟩)] 0) [(1, ⟨0, 0⟩)] 0 =
      [(1, 86400), (1, 86400)] ∧
    ((restore_jobs (restore_jobs [] [(1, ⟨0, 0⟩)] 0) [(1, ⟨0, 0⟩)] 0).filter
      (fun j => j.1 == 1)).length = 2 := by
  decide

/-- Claim C3 (amended): only update-triggered arming cancels first:
`schedule_notification` removes every job of the entity before arming and so
leaves at most one live timer for it, while `restore_jobs` appends its
timers to whatever is already queued without any cancellation (hence
running recovery twice can double timers). -/
theorem schedule_cancels_but_restore_does_not :
    (∀ (jobs : List (Nat × Int)) (uid : Nat) (amount : Int),
      ((schedule_notification jobs uid amount).filter
        (fun j => j.1 == uid)).length ≤ 1) ∧
    (∀ (jobs : List (Nat × Int)) (store : List (Nat × UserData)) (now : Nat),
      restore_jobs jobs store now = jobs ++ restore_armed store now) := by
  constructor
  · intro jobs uid amount
    unfold schedule_notification
    by_cases h : get_seconds_to_cap amount > 0
    · rw [if_pos h, List.filter_append, filter_remove_self]
      simp
    · rw [if_neg h, filter_remove_self]
      simp
  · intro jobs store now
    exact restore_jobs_append_armed store jobs now

/-! ### Claim C4 -/

/-- Claim C4 counterexample: writing a two-entry table over an old one-entry
file passes through an intermediate on-disk state (here: the first new entry
alone) that is neither the old content nor the new content, because
`save_db` truncates the target file in place and writes directly — the
claimed temp-file-and-atomic-rename protocol does not exist in the code. -/
theorem save_db_partial_write_cex :
    ((exportStore [(3, ⟨30, 0⟩), (4, ⟨40, 0⟩)]).take 1) ∈
      save_db_crash_states (exportStore [(3, ⟨30, 0⟩), (4, ⟨40, 0⟩)]) ∧
    (exportStore [(3, ⟨30, 0⟩), (4, ⟨40, 0⟩)]).take 1 ≠
      exportStore [(1, ⟨10, 0⟩)] ∧
    (exportStore [(3, ⟨30, 0⟩), (4, ⟨40, 0⟩)]).take 1 ≠
      exportStore [(3, ⟨30, 0⟩), (4, ⟨40, 0⟩)] := by
  decide

/-- The empty (just-truncated) file is always among the crash-visible states
of a `save_db` run. -/
theorem nil_mem_save_db_crash_states (content : List RawEntry) :
    [] ∈ save_db_crash_states content := by
  unfold save_db_crash_states
  exact List.mem_map.mpr ⟨0, List.mem_range.mpr (by omega), rfl⟩

/-- Claim C4 (amended): a completed `save_db` does write the entire table,
but directly into the DB file with truncate-then-write and no
temp-file-plus-rename: a crash between the truncating `open` and the end of
the write leaves a file (for instance the empty one) that is neither the
old nor the new table, i.e. a partial write is visible. -/
theorem save_db_whole_table_not_atomic (old new : List RawEntry)
    (h1 : old ≠ []) (h2 : new ≠ []) :
    (∀ (s : List (Nat × UserData)) (oldDisk : List RawEntry),
      save_db s oldDisk WriteOutcome.ok = exportStore s) ∧
    [] ∈ save_db_crash_states new ∧ [] ≠ old ∧ [] ≠ new :=
  ⟨fun _ _ => rfl, nil_mem_save_db_crash_states new,
   fun he => h1 he.symm, fun he => h2 he.symm⟩

/-- Claim C4 witness: the amended theorem applied at concrete old and new
file contents. -/
theorem save_db_whole_table_not_atomic_witness :
    (∀ (s : List (Nat × UserData)) (oldDisk : List RawEntry),
      save_db s oldDisk WriteOutcome.ok = exportStore s) ∧
    [] ∈ save_db_crash_states [([2], 6, [])] ∧
    ([] : List RawEntry) ≠ [([1], 5, [])] ∧
    ([] : List RawEntry) ≠ [([2], 6, [])] :=
  save_db_whole_table_not_atomic [([1], 5, [])] [([2], 6, [])]
    (by decide) (by decide)

/-! ### Claim C5 -/

/-- Claim C5 counterexample: a snapshot with `level = 0` whose `as_of` lies
360 s (one regeneration period) in the future of the query time makes
`calculate_current_wp` return `-1`: the code truncates the negative elapsed
time toward zero instead of clamping it to zero, so the result is negative
and lies below `min(level, CAP) = 0`. -/
theorem calculate_current_wp_negative_cex :
    calculate_current_wp [(1, ⟨0, 360⟩)] 1 0 = some (-1) ∧ ((-1 : Int) < 0) := by
  decide

/-- Claim C5 (amended): only when the query time is not before the stored
`as_of` (and the stored level is non-negative) is the result guaranteed
non-negative and at least `min(level, CAP)`; for `now < as_of` the code
performs backward regeneration (truncation toward zero handles less than one
period of negative elapsed time, beyond that the result drops and can go
negative). -/
theorem current_wp_lower_bound (store : List (Nat × UserData)) (uid : Nat)
    (now : Nat) (d : UserData) (hl : storeLookup store uid = some d)
    (h0 : 0 ≤ d.waveplates) (ht : d.timestamp ≤ now) :
    ∃ x, calculate_current_wp store uid now = some x ∧
      min d.waveplates WAVEPLATE_CAP ≤ x ∧ 0 ≤ x ∧ x ≤ WAVEPLATE_CAP := by
  have he : (0 : Int) ≤ (now : Int) - (d.timestamp : Int) := by omega
  have hdiv : Int.tdiv ((now : Int) - (d.timestamp : Int))
      (REGEN_RATE_MINUTES * 60) = ((now : Int) - (d.timestamp : Int)) / 360 := by
    rw [regen_seconds, Int.tdiv_eq_ediv he (by decide)]
  refine ⟨_, calculate_current_wp_eq store uid now d hl, ?_, ?_, ?_⟩ <;>
    rw [hdiv, cap_val] <;> omega

/-- Claim C5 witness: the amended theorem applied at a concrete snapshot. -/
theorem current_wp_lower_bound_witness :
    ∃ x, calculate_current_wp [(1, ⟨100, 50⟩)] 1 410 = some x ∧
      min (100 : Int) WAVEPLATE_CAP ≤ x ∧ 0 ≤ x ∧ x ≤ WAVEPLATE_CAP :=
  current_wp_lower_bound [(1, ⟨100, 50⟩)] 1 410 ⟨100, 50⟩ rfl
    (by decide) (by decide)

/-! ### Claim C6 -/

/-- Claim C6: for a stored snapshot with `0 ≤ level ≤ CAP` and query times
`as_of ≤ t1 ≤ t2`, the computed current level equals the spec's formula
`min(CAP, level + floor((t − as_of)/REGEN_PERIOD))` at both times, is
monotonically non-decreasing from `t1` to `t2` and stays bounded by the
cap. -/
theorem current_wp_formula_monotone (store : List (Nat × UserData)) (uid : Nat)
    (d : UserData) (t1 t2 : Nat) (hl : storeLookup store uid = some d)
    (h0 : 0 ≤ d.waveplates) (hcap : d.waveplates ≤ WAVEPLATE_CAP)
    (ht : d.timestamp ≤ t1) (h12 : t1 ≤ t2) :
    ∃ x1 x2, calculate_current_wp store uid t1 = some x1 ∧
      calculate_current_wp store uid t2 = some x2 ∧
      x1 = currentLevel_spec d.waveplates d.timestamp t1 ∧
      x2 = currentLevel_spec d.waveplates d.timestamp t2 ∧
      x1 ≤ x2 ∧ x2 ≤ WAVEPLATE_CAP := by
  have h1e : (0 : Int) ≤ (t1 : Int) - (d.timestamp : Int) := by omega
  have h2e : (0 : Int) ≤ (t2 : Int) - (d.timestamp : Int) := by omega
  have hd1 : Int.tdiv ((t1 : Int) - (d.timestamp : Int))
      (REGEN_RATE_MINUTES * 60) = ((t1 : Int) - (d.timestamp : Int)) / 360 := by
    rw [regen_seconds, Int.tdiv_eq_ediv h1e (by decide)]
  have hd2 : Int.tdiv ((t2 : Int) - (d.timestamp : Int))
      (REGEN_RATE_MINUTES * 60) = ((t2 : Int) - (d.timestamp : Int)) / 360 := by
    rw [regen_seconds, Int.tdiv_eq_ediv h2e (by decide)]
  have hf1 : Int.fdiv ((t1 : Int) - (d.timestamp : Int))
      (REGEN_RATE_MINUTES * 60) = ((t1 : Int) - (d.timestamp : Int)) / 360 := by
    rw [regen_seconds, Int.fdiv_eq_ediv _ (by decide)]
  have hf2 : Int.fdiv ((t2 : Int) - (d.timestamp : Int))
      (REGEN_RATE_MINUTES * 60) = ((t2 : Int) - (d.timestamp : Int)) / 360 := by
    rw [regen_seconds, Int.fdiv_eq_ediv _ (by decide)]
  refine ⟨_, _, calculate_current_wp_eq store uid t1 d hl,
    calculate_current_wp_eq store uid t2 d hl, ?_, ?_, ?_, ?_⟩
  · unfold currentLevel_spec
    rw [hd1, hf1]
    exact min_comm _ _
  · unfold currentLevel_spec
    rw [hd2, hf2]
    exact min_comm _ _
  · rw [hd1, hd2, cap_val]
    omega
  · rw [hd2, cap_val]
    omega

/-- Claim C6 witness: the theorem applied at a concrete snapshot and two
concrete query times. -/
theorem current_wp_formula_monotone_witness :
    ∃ x1 x2, calculate_current_wp [(1, ⟨100, 50⟩)] 1 410 = some x1 ∧
      calculate_current_wp [(1, ⟨100, 50⟩)] 1 770 = some x2 ∧
      x1 = currentLevel_spec 100 50 410 ∧
      x2 = currentLevel_spec 100 50 770 ∧
      x1 ≤ x2 ∧ x2 ≤ WAVEPLATE_CAP :=
  current_wp_formula_monotone [(1, ⟨100, 50⟩)] 1 ⟨100, 50⟩ 410 770 rfl
    (by decide) (by decide) (by decide) (by decide)

/-! ### Claim C7 -/

/-- Claim C7: startup recovery recomputes each user's current level with the
same computation as `calculate_current_wp`, and arms a timer of
`get_seconds_to_cap` of that level exactly for the users below the cap (the
jobs added are exactly `restore_armed`, which arms iff the recomputed level
is `< WAVEPLATE_CAP`); concretely, a snapshot `{level 200, as_of T0}`
recovered at `T0 + 3000 s` yields level 208 and an armed delay of 11520 s. -/
theorem restore_recomputes_and_arms :
    (∀ (uid : Nat) (d : UserData) (now : Nat),
      calculate_current_wp [(uid, d)] uid now = some (restore_cur d now)) ∧
    (∀ (jobs : List (Nat × Int)) (store : List (Nat × UserData)) (now : Nat),
      restore_jobs jobs store now = jobs ++ restore_armed store now) ∧
    restore_jobs [] [(1, ⟨200, 0⟩)] 3000 = [(1, 11520)] := by
  refine ⟨?_, ?_, by decide⟩
  · intro uid d now
    have hl : storeLookup [(uid, d)] uid = some d := by
      simp [storeLookup, List.find?_cons]
    rw [calculate_current_wp_eq [(uid, d)] uid now d hl]
    unfold restore_cur
    rw [regen_seconds, regen_seconds_comm]
  · intro jobs store now
    exact restore_jobs_append_armed store jobs now

/-! ### Claim C8 -/

/-- Claim C8: after `upsert(id, L, T)` (a dict overwrite followed by
`save_db`), loading the persisted file back rebuilds exactly the same table
and in particular yields the snapshot `{level = L, as_of = T}` for `id` —
the persistence format round-trips exactly (dict keys assumed unique, as
Python dicts guarantee). -/
theorem upsert_save_load_round_trip (store : List (Nat × UserData)) (uid : Nat)
    (L : Int) (T : Nat) (h : (store.map Prod.fst).Nodup) :
    load_db (some (some (exportStore (storeInsert store uid ⟨L, T⟩)))) =
      (false, storeInsert store uid ⟨L, T⟩) ∧
    storeLookup (storeInsert store uid ⟨L, T⟩) uid = some ⟨L, T⟩ :=
  ⟨load_db_exportStore _ (storeInsert_nodup store uid ⟨L, T⟩ h),
   storeLookup_insert_self store uid ⟨L, T⟩⟩

/-- Claim C8 witness: the round trip at a concrete store, id, level and
timestamp. -/
theorem upsert_save_load_round_trip_witness :
    load_db (some (some (exportStore (storeInsert [(2, ⟨5, 7⟩)] 1 ⟨200, 9⟩)))) =
      (false, storeInsert [(2, ⟨5, 7⟩)] 1 ⟨200, 9⟩) ∧
    storeLookup (storeInsert [(2, ⟨5, 7⟩)] 1 ⟨200, 9⟩) 1 = some ⟨200, 9⟩ :=
  upsert_save_load_round_trip [(2, ⟨5, 7⟩)] 1 200 9 (by decide)

/-! ### Claim C9 -/

/-- Claim C9: a `/set` request whose argument is non-numeric or outside
`[0, WAVEPLATE_CAP]` is rejected with the corresponding validation reply and
leaves the whole bot state (store, disk, job queue) unchanged, while an
amount equal to exactly `WAVEPLATE_CAP` is accepted. -/
theorem set_manual_validation (st : BotState) (uid : Nat) (arg : CmdArg)
    (now : Nat) (w : WriteOutcome)
    (h : arg = CmdArg.notNum ∨
      ∃ n, arg = CmdArg.num n ∧ (n < 0 ∨ WAVEPLATE_CAP < n)) :
    (set_manual st uid arg now w).1 = st ∧
    ((set_manual st uid arg now w).2 = Reply.invalidNumberMsg ∨
      (set_manual st uid arg now w).2 = Reply.rangeErrorMsg) ∧
    (set_manual st uid (CmdArg.num WAVEPLATE_CAP) now w).2 =
      Reply.updatedMsg WAVEPLATE_CAP := by
  have hcap : (set_manual st uid (CmdArg.num WAVEPLATE_CAP) now w).2 =
      Reply.updatedMsg WAVEPLATE_CAP := by
    simp only [set_manual]
    rw [if_neg (by decide)]
  rcases h with rfl | ⟨n, rfl, hn⟩
  · exact ⟨rfl, Or.inl rfl, hcap⟩
  · have hrej : set_manual st uid (CmdArg.num n) now w =
        (st, Reply.rangeErrorMsg) := by
      simp only [set_manual]
      rw [if_pos hn]
    exact ⟨by rw [hrej], Or.inr (by rw [hrej]), hcap⟩

/-- Claim C9 witness: `SetLevel(300)` with cap 240 at a concrete state. -/
theorem set_manual_validation_witness :
    (set_manual ⟨[], [], []⟩ 1 (CmdArg.num 300) 5 WriteOutcome.ok).1 = ⟨[], [], []⟩ ∧
    ((set_manual ⟨[], [], []⟩ 1 (CmdArg.num 300) 5 WriteOutcome.ok).2 =
        Reply.invalidNumberMsg ∨
      (set_manual ⟨[], [], []⟩ 1 (CmdArg.num 300) 5 WriteOutcome.ok).2 =
        Reply.rangeErrorMsg) ∧
    (set_manual ⟨[], [], []⟩ 1 (CmdArg.num WAVEPLATE_CAP) 5 WriteOutcome.ok).2 =
      Reply.updatedMsg WAVEPLATE_CAP :=
  set_manual_validation ⟨[], [], []⟩ 1 (CmdArg.num 300) 5 WriteOutcome.ok
    (Or.inr ⟨300, rfl, Or.inr (by decide)⟩)

/-! ### Claim C10 -/

/-- Claim C10: `start` for an already-registered entity changes nothing at
all (store untouched for it and every other entity, no disk write, no job
change); for a first contact it inserts the snapshot
`{level = WAVEPLATE_CAP, as_of = now}`, persists the new table, leaves every
other entity's snapshot unchanged and never touches the job queue. -/
theorem start_frame_effect :
    (∀ (st : BotState) (uid : Nat) (now : Nat) (w : WriteOutcome),
      (storeLookup st.store uid).isSome = true → start st uid now w = st) ∧
    (∀ (st : BotState) (uid : Nat) (now : Nat),
      storeLookup st.store uid = none →
        (start st uid now WriteOutcome.ok).store =
            storeInsert st.store uid ⟨WAVEPLATE_CAP, now⟩ ∧
          storeLookup (start st uid now WriteOutcome.ok).store uid =
            some ⟨WAVEPLATE_CAP, now⟩ ∧
          (∀ v : Nat, v ≠ uid →
            storeLookup (start st uid now WriteOutcome.ok).store v = storeLookup st.store v) ∧
          (start st uid now WriteOutcome.ok).disk = exportStore (start st uid now WriteOutcome.ok).store ∧
          (start st uid now WriteOutcome.ok).jobs = st.jobs) := by
  constructor
  · intro st uid now w h
    unfold start
    rw [if_pos h]
  · intro st uid now h
    have hns : ¬(storeLookup st.store uid).isSome = true := by simp [h]
    have hstart : start st uid now WriteOutcome.ok =
        { store := storeInsert st.store uid ⟨WAVEPLATE_CAP, now⟩
          disk := save_db (storeInsert st.store uid ⟨WAVEPLATE_CAP, now⟩)
            st.disk WriteOutcome.ok
          jobs := st.jobs } := by
      unfold start
      rw [if_neg hns]
    refine ⟨by rw [hstart], ?_, ?_, by rw [hstart]; rfl, by rw [hstart]⟩
    · rw [hstart]
      exact storeLookup_insert_self _ _ _
    · intro v hv
      rw [hstart]
      exact storeLookup_insert_other _ _ _ _ hv

/-- Claim C10 witness: both branches at concrete states — a registered user
passes through unchanged, a fresh user gets a full snapshot and an untouched
job queue. -/
theorem start_frame_effect_witness :
    start ⟨[(1, ⟨7, 0⟩)], [], []⟩ 1 5 WriteOutcome.ok = ⟨[(1, ⟨7, 0⟩)], [], []⟩ ∧
    storeLookup (start ⟨[], [], []⟩ 1 5 WriteOutcome.ok).store 1 =
      some ⟨WAVEPLATE_CAP, 5⟩ ∧
    (start ⟨[], [], []⟩ 1 5 WriteOutcome.ok).jobs = [] :=
  ⟨start_frame_effect.1 ⟨[(1, ⟨7, 0⟩)], [], []⟩ 1 5 WriteOutcome.ok rfl,
   (start_frame_effect.2 ⟨[], [], []⟩ 1 5 rfl).2.1,
   (start_frame_effect.2 ⟨[], [], []⟩ 1 5 rfl).2.2.2.2⟩
